import Mathlib

/-!
Shallow embedding of the authentication core of the Crud-App repository
(src/auth.py): the `TokenManager` class (JWT creation and verification) and
the request-guarding decorators `token_required` and `optional_token`.

Modelling conventions:
* Timestamps are `Int` seconds (the code uses `datetime.utcnow()` at second
  precision and PyJWT serializes datetimes to integer Unix timestamps).
  The two separate `datetime.utcnow()` calls inside one payload construction
  are modelled by a single `now` parameter.
* A JWT payload is a Python dict; the fields that ever occur in auth.py are
  modelled as a record of `Option` fields (`none` = key absent).
* The HMAC signature computed by PyJWT over the header and payload is
  modelled as an ideal MAC: a `Sig` value recording the secret, the header
  algorithm and the payload, so two MACs are equal exactly when secret,
  algorithm and signed content all agree. Tampering with any byte of the
  encoded payload or signature segment of a real JWT yields either a decode
  failure (`Token.malformed`) or a `signed` token whose payload or `Sig`
  differs from the original.
* `jwt.decode(token, secret, algorithms=[...])` raises
  `ExpiredSignatureError` / `InvalidTokenError`; this is modelled with
  `Except JwtError Claims` (`jwtDecode`), and `TokenManager.verify_token`
  catches both, as in the source, returning `Option Claims`.
* The module-level globals `JWT_SECRET`, `JWT_ALGORITHM`,
  `JWT_EXPIRATION_HOURS` read from `os.getenv` are modelled by an
  environment `Env := String → Option String` plus the defs below; the
  `TokenManager` methods take the secret and the expiration-hours value as
  explicit parameters, to be instantiated with `JWT_SECRET env` /
  `JWT_EXPIRATION_HOURS env`.
* The `Authorization` header is modelled as a `List Char` so that Python's
  `str.split(" ")` (explicit separator, empty chunks kept) is the structural
  function `pySplit`. The base64/JSON wire codec of the JWT library is
  abstracted as a `decode : List Char → Token` environment (the library
  guarantees that decoding the serialization of a token yields that token,
  that distinct tokens serialize to distinct nonempty strings, and that
  non-JWT strings decode to `Token.malformed`).
-/

namespace CrudApp

/-- JWT payload dict of auth.py as a record; `none` means the key is absent.
`type_` models the `"type"` key set by `create_refresh_token`. -/
structure Claims where
  user_id : Option String
  email : Option String
  name : Option String
  type_ : Option String
  iat : Option Int
  exp : Option Int
deriving DecidableEq

/-- Ideal MAC tag: PyJWT's HMAC over header and payload, abstracted so that
two tags agree exactly when the secret, the algorithm and the signed payload
all agree. -/
structure Sig where
  secret : String
  alg : String
  payload : Claims
deriving DecidableEq

/-- Compute the ideal MAC tag. -/
def macSign (secret alg : String) (payload : Claims) : Sig :=
  ⟨secret, alg, payload⟩

/-- A token string as the JWT library sees it: either a structurally valid
three-segment JWS (header algorithm, claims payload, signature) or a
malformed string. -/
inductive Token where
  | signed (alg : String) (payload : Claims) (sig : Sig)
  | malformed (raw : String)
deriving DecidableEq

/-- Payload of a structurally valid token, if any. -/
def Token.payload? : Token → Option Claims
  | .signed _ p _ => some p
  | .malformed _ => none

/-- Python dict truthiness for a payload: the dict is falsy exactly when it
has no keys, i.e. when every modelled field is absent. Both decorators test
it: `if not payload:` (treat a verified empty payload as invalid) and
`if payload:` (attach only a truthy payload). -/
def Claims.isEmpty (c : Claims) : Bool :=
  c.user_id.isNone && c.email.isNone && c.name.isNone && c.type_.isNone
    && c.iat.isNone && c.exp.isNone

/-- The PyJWT exceptions caught by `verify_token`: `jwt.ExpiredSignatureError`
and `jwt.InvalidTokenError` (the latter also the superclass of decode and
signature errors). -/
inductive JwtError where
  | expiredSignature
  | invalidToken
deriving DecidableEq

/-- Model of `jwt.decode(token, secret, algorithms=algs)` at time `now`:
reject malformed tokens, header algorithms outside `algs`, and bad
signatures with `InvalidTokenError`; then reject `exp ≤ now` (leeway 0) with
`ExpiredSignatureError`; otherwise return the payload. -/
def jwtDecode (secret : String) (algs : List String) (now : Int) :
    Token → Except JwtError Claims
  | .malformed _ => .error .invalidToken
  | .signed alg payload sig =>
    if alg ∉ algs then .error .invalidToken
    else if sig ≠ macSign secret alg payload then .error .invalidToken
    else
      match payload.exp with
      | some e => if e ≤ now then .error .expiredSignature else .ok payload
      | none => .ok payload

/-- Model of `jwt.encode(payload, secret, algorithm=alg)`. -/
def jwtEncode (secret alg : String) (payload : Claims) : Token :=
  .signed alg payload (macSign secret alg payload)

/-- Environment for `os.getenv`. -/
abbrev Env := String → Option String

/-- Decimal integer parse used for env values, modelling Python's `int()`
on the plain decimal literals that occur here (Python's `int()` additionally
strips whitespace and accepts `+` and underscores; a non-numeric value makes
the source crash at import time, a startup-fatal condition outside the
per-request claims). -/
def digitsVal : List Char → Nat → Option Nat
  | [], acc => some acc
  | c :: cs, acc =>
    if c.isDigit then digitsVal cs (acc * 10 + (c.toNat - 48)) else none

/-- Parse an optional minus sign followed by decimal digits. -/
def pyInt? (s : String) : Option Int :=
  match s.toList with
  | [] => none
  | '-' :: ds =>
    if ds.isEmpty then none
    else (digitsVal ds 0).map (fun n => -(n : Int))
  | ds => (digitsVal ds 0).map (fun n => (n : Int))

/-- Module global `JWT_SECRET = os.getenv("JWT_SECRET", "your-secret-key-change-this-in-production")`. -/
def JWT_SECRET (env : Env) : String :=
  (env "JWT_SECRET").getD "your-secret-key-change-this-in-production"

/-- Module global `JWT_ALGORITHM = "HS256"`. -/
def JWT_ALGORITHM : String := "HS256"

/-- Module global `JWT_EXPIRATION_HOURS = int(os.getenv("JWT_EXPIRATION_HOURS", "24"))`. -/
def JWT_EXPIRATION_HOURS (env : Env) : Int :=
  ((env "JWT_EXPIRATION_HOURS").bind pyInt?).getD 24

namespace TokenManager

/-- `TokenManager.create_access_token(user_id, user_email, user_name)`:
payload `{user_id, email, name, iat: now, exp: now + hours·3600}` — note no
`"type"` key — signed with the module secret and `HS256`. -/
def create_access_token (secret : String) (expirationHours : Int) (now : Int)
    (user_id user_email user_name : String) : Token :=
  jwtEncode secret JWT_ALGORITHM
    { user_id := some user_id
      email := some user_email
      name := some user_name
      type_ := none
      iat := some now
      exp := some (now + 3600 * expirationHours) }

/-- `TokenManager.create_refresh_token(user_id)`: payload
`{user_id, type: "refresh", iat: now, exp: now + timedelta(days=30)}`; the
30-day lifetime is a literal in the source. -/
def create_refresh_token (secret : String) (now : Int) (user_id : String) :
    Token :=
  jwtEncode secret JWT_ALGORITHM
    { user_id := some user_id
      email := none
      name := none
      type_ := some "refresh"
      iat := some now
      exp := some (now + 2592000) }

/-- `TokenManager.verify_token(token)`: `jwt.decode(token, JWT_SECRET,
algorithms=[JWT_ALGORITHM])` inside try/except, returning the payload on
success and `None` on `ExpiredSignatureError` or `InvalidTokenError`. -/
def verify_token (secret : String) (now : Int) (t : Token) : Option Claims :=
  match jwtDecode secret [JWT_ALGORITHM] now t with
  | .ok payload => some payload
  | .error .expiredSignature => none
  | .error .invalidToken => none

/-- `TokenManager.verify_refresh_token(token)`: `verify_token`, then require
`payload.get("type") == "refresh"`. -/
def verify_refresh_token (secret : String) (now : Int) (t : Token) :
    Option Claims :=
  match verify_token secret now t with
  | some payload =>
    if payload.type_ = some "refresh" then some payload else none
  | none => none

end TokenManager

/-- Python `s.split(" ")` with an explicit one-character separator: empty
chunks are kept, and splitting the empty string yields `[""]`. -/
def pySplit (sep : Char) : List Char → List (List Char)
  | [] => [[]]
  | c :: cs =>
    match pySplit sep cs with
    | [] => [[]]
    | w :: ws => if c = sep then [] :: w :: ws else (c :: w) :: ws

/-- Outcome of a `token_required`-guarded request: the three distinct 401
JSON error bodies of auth.py, or the wrapped view's result together with the
claims attached as `request.user`. -/
inductive GateResult (α : Type) where
  | missingCredential
  | malformedCredential
  | invalidCredential
  | ok (identity : Claims) (value : α)
deriving DecidableEq

/-- The `token_required` decorator applied to a view `f` that reads
`request.user`: extract `auth_header.split(" ")[1]` (an `IndexError` gives
`"Invalid authorization header"`), treat a `None`-or-empty token as
`"Missing authorization token"`, verify, and answer
`"Invalid or expired token"` when `not payload` — i.e. when verification
returns `None` or a falsy (empty) payload dict; otherwise set
`request.user` and call `f`. -/
def token_required {α : Type} (decode : List Char → Token) (secret : String)
    (now : Int) (authHeader : Option (List Char)) (f : Claims → α) :
    GateResult α :=
  match authHeader with
  | none => .missingCredential
  | some h =>
    match (pySplit ' ' h)[1]? with
    | none => .malformedCredential
    | some tok =>
      if tok = [] then .missingCredential
      else
        match TokenManager.verify_token secret now (decode tok) with
        | none => .invalidCredential
        | some payload =>
          if payload.isEmpty then .invalidCredential
          else .ok payload (f payload)

/-- The `optional_token` decorator applied to a view `f` that reads
`request.user`: like `token_required` but every failure is swallowed and the
view runs with `request.user = None`; `if payload:` attaches the payload
only when it is truthy — non-`None` and a nonempty dict (the final
`request.user = getattr(request, "user", None)` line of the source keeps
the payload when it was set and otherwise stores `None`). -/
def optional_token {α : Type} (decode : List Char → Token) (secret : String)
    (now : Int) (authHeader : Option (List Char)) (f : Option Claims → α) :
    α :=
  let user : Option Claims :=
    match authHeader with
    | none => none
    | some h =>
      match (pySplit ' ' h)[1]? with
      | none => none
      | some tok =>
        match TokenManager.verify_token secret now (decode tok) with
        | some payload => if payload.isEmpty then none else some payload
        | none => none
  f user

/-- Spec reading of the `token_type` discriminator: an absent field is
interpreted as `access` (backward-compatibility convention stated in the
spec's data model). -/
def tokenTypeOf (c : Claims) : String :=
  c.type_.getD "access"

/-- Lifetime `expires_at − issued_at` of a payload, when both stamps are
present. -/
def Claims.lifetime (c : Claims) : Option Int :=
  match c.exp, c.iat with
  | some e, some i => some (e - i)
  | _, _ => none

/-! ### Helper lemmas -/

/-- Characterization of successful verification: `verify_token` yields a
payload exactly for a structurally valid token with the configured header
algorithm, a signature that is the MAC of the payload under the configured
secret, and an `exp` (when present) strictly in the future. -/
theorem verify_some_iff (secret : String) (now : Int) (t : Token) (p : Claims) :
    TokenManager.verify_token secret now t = some p ↔
      ∃ sig, t = .signed JWT_ALGORITHM p sig
        ∧ sig = macSign secret JWT_ALGORITHM p
        ∧ ∀ e, p.exp = some e → now < e := by
  constructor
  · intro h
    cases t with
    | malformed raw => simp [TokenManager.verify_token, jwtDecode] at h
    | signed alg payload sig =>
      by_cases halg : alg = JWT_ALGORITHM
      · subst halg
        by_cases hsig : sig = macSign secret JWT_ALGORITHM payload
        · subst hsig
          cases hexp : payload.exp with
          | none =>
            have hp : payload = p := by
              simpa [TokenManager.verify_token, jwtDecode, hexp] using h
            subst hp
            exact ⟨_, rfl, rfl, fun e he => by rw [he] at hexp; cases hexp⟩
          | some e =>
            by_cases hle : e ≤ now
            · simp [TokenManager.verify_token, jwtDecode, hexp, hle] at h
            · have hp : payload = p := by
                simpa [TokenManager.verify_token, jwtDecode, hexp, hle] using h
              subst hp
              refine ⟨_, rfl, rfl, fun e2 he2 => ?_⟩
              rw [he2] at hexp
              injection hexp with h3
              omega
        · simp [TokenManager.verify_token, jwtDecode, hsig] at h
      · simp [TokenManager.verify_token, jwtDecode, halg] at h
  · rintro ⟨sig, rfl, rfl, hexp⟩
    cases hpe : p.exp with
    | none => simp [TokenManager.verify_token, jwtDecode, hpe]
    | some e =>
      have := hexp e hpe
      simp [TokenManager.verify_token, jwtDecode, hpe, not_le.mpr this]

/-- Verification of anything `jwt.decode` rejects is `None`. -/
theorem verify_none_of_error (secret : String) (now : Int) (t : Token)
    (e : JwtError) (h : jwtDecode secret [JWT_ALGORITHM] now t = .error e) :
    TokenManager.verify_token secret now t = none := by
  unfold TokenManager.verify_token
  rw [h]
  cases e <;> rfl

/-- A fresh access token verifies to its own payload. -/
theorem verify_create_access (secret : String) (hours now : Int)
    (uid email name : String) (hpos : 0 < hours) :
    TokenManager.verify_token secret now
        (TokenManager.create_access_token secret hours now uid email name)
      = some { user_id := some uid, email := some email, name := some name,
               type_ := none, iat := some now, exp := some (now + 3600 * hours) } := by
  have hexp : ¬ (now + 3600 * hours ≤ now) := by omega
  simp [TokenManager.verify_token, TokenManager.create_access_token, jwtEncode,
    jwtDecode, hexp]

/-- A fresh refresh token verifies to its own payload. -/
theorem verify_create_refresh (secret : String) (now : Int) (uid : String) :
    TokenManager.verify_token secret now
        (TokenManager.create_refresh_token secret now uid)
      = some { user_id := some uid, email := none, name := none,
               type_ := some "refresh", iat := some now,
               exp := some (now + 2592000) } := by
  have hexp : ¬ (now + 2592000 ≤ now) := by omega
  simp [TokenManager.verify_token, TokenManager.create_refresh_token, jwtEncode,
    jwtDecode, hexp]

/-- The refresh verifier rejects every access token: its payload has no
`"type"` key. -/
theorem verify_refresh_access_none (secret : String) (hours now : Int)
    (uid email name : String) :
    TokenManager.verify_refresh_token secret now
        (TokenManager.create_access_token secret hours now uid email name)
      = none := by
  unfold TokenManager.verify_refresh_token
  cases hv : TokenManager.verify_token secret now
      (TokenManager.create_access_token secret hours now uid email name) with
  | none => rfl
  | some p =>
    rw [verify_some_iff] at hv
    obtain ⟨sig, heq, -, -⟩ := hv
    unfold TokenManager.create_access_token jwtEncode at heq
    injection heq with h1 h2 h3
    subst h2
    simp

/-- Gate on a header whose split has a second, nonempty chunk that fails
verification. -/
theorem token_required_invalid_of {α : Type} (decode : List Char → Token)
    (secret : String) (now : Int) (hdr tok : List Char) (f : Claims → α)
    (hsplit : (pySplit ' ' hdr)[1]? = some tok) (hne : tok ≠ [])
    (hv : TokenManager.verify_token secret now (decode tok) = none) :
    token_required decode secret now (some hdr) f = .invalidCredential := by
  simp [token_required, hsplit, hne, hv]

/-- Gate on a header whose split has a second, nonempty chunk that verifies
to a truthy (nonempty) payload. -/
theorem token_required_ok_of {α : Type} (decode : List Char → Token)
    (secret : String) (now : Int) (hdr tok : List Char) (c : Claims)
    (f : Claims → α)
    (hsplit : (pySplit ' ' hdr)[1]? = some tok) (hne : tok ≠ [])
    (hv : TokenManager.verify_token secret now (decode tok) = some c)
    (hemp : c.isEmpty = false) :
    token_required decode secret now (some hdr) f = .ok c (f c) := by
  simp [token_required, hsplit, hne, hv, hemp]

/-- Gate on a header whose split has a second, nonempty chunk that verifies
to a falsy (empty) payload dict: `if not payload:` answers the
`"Invalid or expired token"` 401. -/
theorem token_required_invalid_empty_of {α : Type}
    (decode : List Char → Token) (secret : String) (now : Int)
    (hdr tok : List Char) (c : Claims) (f : Claims → α)
    (hsplit : (pySplit ' ' hdr)[1]? = some tok) (hne : tok ≠ [])
    (hv : TokenManager.verify_token secret now (decode tok) = some c)
    (hemp : c.isEmpty = true) :
    token_required decode secret now (some hdr) f = .invalidCredential := by
  simp [token_required, hsplit, hne, hv, hemp]

/-- Splitting never yields the empty list of chunks. -/
theorem pySplit_ne_nil (sep : Char) (l : List Char) : pySplit sep l ≠ [] := by
  cases l with
  | nil => simp [pySplit]
  | cons c cs =>
    unfold pySplit
    cases pySplit sep cs with
    | nil => simp
    | cons w ws =>
      by_cases h : c = sep <;> simp [h]

/-- A chunk without the separator splits into itself alone. -/
theorem pySplit_no_sep (sep : Char) (l : List Char) (h : sep ∉ l) :
    pySplit sep l = [l] := by
  induction l with
  | nil => rfl
  | cons c cs ih =>
    have hc : c ≠ sep := fun hc => h (hc ▸ List.mem_cons_self c cs)
    have hcs : sep ∉ cs := fun hm => h (List.mem_cons_of_mem c hm)
    unfold pySplit
    rw [ih hcs]
    simp [hc]

/-- Splitting at the first separator occurrence. -/
theorem pySplit_sep_append (sep : Char) (a b : List Char) (ha : sep ∉ a) :
    pySplit sep (a ++ sep :: b) = a :: pySplit sep b := by
  induction a with
  | nil =>
    simp only [List.nil_append]
    conv_lhs => unfold pySplit
    cases hb : pySplit sep b with
    | nil => exact absurd hb (pySplit_ne_nil sep b)
    | cons w ws => simp
  | cons c cs ih =>
    have hc : c ≠ sep := fun hc => ha (hc ▸ List.mem_cons_self c cs)
    have hcs : sep ∉ cs := fun hm => ha (List.mem_cons_of_mem c hm)
    have h2 := ih hcs
    simp only [List.cons_append]
    conv_lhs => unfold pySplit
    rw [h2]
    simp [hc]

/-- Gate with no Authorization header. -/
theorem token_required_no_header {α : Type} (decode : List Char → Token)
    (secret : String) (now : Int) (f : Claims → α) :
    token_required decode secret now none f = .missingCredential := rfl

/-- Gate on a header whose split has no second chunk (the `IndexError`
branch). -/
theorem token_required_malformed_of {α : Type} (decode : List Char → Token)
    (secret : String) (now : Int) (hdr : List Char) (f : Claims → α)
    (hsplit : (pySplit ' ' hdr)[1]? = none) :
    token_required decode secret now (some hdr) f = .malformedCredential := by
  simp [token_required, hsplit]

/-- Gate on a header whose split has an empty second chunk (Python's
`not token` treats the empty string like a missing one). -/
theorem token_required_empty_of {α : Type} (decode : List Char → Token)
    (secret : String) (now : Int) (hdr : List Char) (f : Claims → α)
    (hsplit : (pySplit ' ' hdr)[1]? = some []) :
    token_required decode secret now (some hdr) f = .missingCredential := by
  simp [token_required, hsplit]

/-! ### Claim theorems -/

/-- C2: Issue/verify round-trip for access tokens — for every
`(user_id, email, name)` and positive configured hour count,
`verify_token` applied to `create_access_token user_id email name` at the
issuance instant succeeds, and the returned claims carry exactly the input
`user_id`, `email` and `name`, with a token type that reads as `access`
(the `"type"` discriminator is absent, which the spec interprets as
`access`). -/
theorem access_token_round_trip (secret : String) (hours now : Int)
    (uid email name : String) (hpos : 0 < hours) :
    ∃ c : Claims,
      TokenManager.verify_token secret now
          (TokenManager.create_access_token secret hours now uid email name)
        = some c
      ∧ c.user_id = some uid ∧ c.email = some email ∧ c.name = some name
      ∧ tokenTypeOf c = "access" :=
  ⟨_, verify_create_access secret hours now uid email name hpos,
    rfl, rfl, rfl, rfl⟩

/-- Witness for C2 at the default 24-hour configuration. -/
theorem access_token_round_trip_witness :
    (0 : Int) < 24
    ∧ ∃ c : Claims,
        TokenManager.verify_token "s" 0
            (TokenManager.create_access_token "s" 24 0 "u1" "a@b.com" "Ann")
          = some c
        ∧ c.user_id = some "u1" ∧ c.email = some "a@b.com"
        ∧ c.name = some "Ann" ∧ tokenTypeOf c = "access" :=
  ⟨by norm_num,
    access_token_round_trip "s" 24 0 "u1" "a@b.com" "Ann" (by norm_num)⟩

/-- C3: Refresh verification discriminates token kind — for every
`user_id`, verifying a fresh refresh token through `verify_refresh_token`
succeeds with that `user_id` in the claims, while `verify_refresh_token`
rejects every access token (type confusion rejected), for every `email`,
`name` and configured lifetime. -/
theorem refresh_discrimination_round_trip (secret : String) (hours now : Int)
    (uid email name : String) :
    TokenManager.verify_refresh_token secret now
        (TokenManager.create_refresh_token secret now uid)
      = some { user_id := some uid, email := none, name := none,
               type_ := some "refresh", iat := some now,
               exp := some (now + 2592000) }
    ∧ TokenManager.verify_refresh_token secret now
        (TokenManager.create_access_token secret hours now uid email name)
      = none := by
  refine ⟨?_, verify_refresh_access_none secret hours now uid email name⟩
  rw [TokenManager.verify_refresh_token, verify_create_refresh]
  simp

/-- C10: Claim-field inventory — an access token's payload consists of
exactly `user_id`, `email`, `name`, `iat` and `exp` (in particular the
`"type"` discriminator is absent), a refresh token's payload consists of
exactly `user_id`, `type = "refresh"`, `iat` and `exp`, and the
access/refresh distinction observed by `verify_refresh_token` rests
entirely on the `"type"` field equalling `"refresh"`. -/
theorem token_payload_field_shapes (secret : String) (hours now : Int)
    (uid email name : String) :
    (TokenManager.create_access_token secret hours now uid email name).payload?
      = some { user_id := some uid, email := some email, name := some name,
               type_ := none, iat := some now,
               exp := some (now + 3600 * hours) }
    ∧ (TokenManager.create_refresh_token secret now uid).payload?
      = some { user_id := some uid, email := none, name := none,
               type_ := some "refresh", iat := some now,
               exp := some (now + 2592000) }
    ∧ ∀ (t : Token) (c : Claims),
        TokenManager.verify_refresh_token secret now t = some c
          ↔ TokenManager.verify_token secret now t = some c
            ∧ c.type_ = some "refresh" := by
  refine ⟨rfl, rfl, fun t c => ?_⟩
  unfold TokenManager.verify_refresh_token
  cases hv : TokenManager.verify_token secret now t with
  | none => simp
  | some p =>
    show (if p.type_ = some "refresh" then some p else none) = some c
      ↔ some p = some c ∧ c.type_ = some "refresh"
    by_cases hp : p.type_ = some "refresh"
    · rw [if_pos hp]
      simp only [Option.some.injEq]
      exact ⟨fun h => ⟨h, h ▸ hp⟩, fun h => h.1⟩
    · rw [if_neg hp]
      constructor
      · intro h; exact absurd h (by simp)
      · rintro ⟨heq, hc⟩
        injection heq with heq2
        subst heq2
        exact absurd hc hp

/-- Concrete claims payload used by witnesses. -/
def sampleClaims : Claims :=
  { user_id := some "u1", email := some "a@b.com", name := some "Ann",
    type_ := none, iat := some 0, exp := some 86400 }

/-- `sampleClaims` with one field altered, for the tampering witness. -/
def tamperedClaims : Claims :=
  { user_id := some "u2", email := some "a@b.com", name := some "Ann",
    type_ := none, iat := some 0, exp := some 86400 }

/-- C4: `verify_token` is a total function from token to claims-or-`None` —
it returns the typed failure `None` (never an exception) for every malformed
token, every token whose header algorithm differs from the configured
`HS256`, every token whose signature is not the configured secret's MAC of
its payload (hence any tampering with the payload or signature segment of a
well-signed token, and any token signed under a different secret), and every
expired token; and it returns claims only for a well-signed, unexpired
`HS256` token, whose payload it returns verbatim. -/
theorem verify_token_total_failure_modes (secret : String) (now : Int) :
    (∀ raw, TokenManager.verify_token secret now (.malformed raw) = none)
    ∧ (∀ alg payload sig, alg ≠ JWT_ALGORITHM →
        TokenManager.verify_token secret now (.signed alg payload sig) = none)
    ∧ (∀ alg payload sig, sig ≠ macSign secret alg payload →
        TokenManager.verify_token secret now (.signed alg payload sig) = none)
    ∧ (∀ alg payload sig e, payload.exp = some e → e ≤ now →
        TokenManager.verify_token secret now (.signed alg payload sig) = none)
    ∧ (∀ payload tampered, tampered ≠ payload →
        TokenManager.verify_token secret now
            (.signed JWT_ALGORITHM tampered
              (macSign secret JWT_ALGORITHM payload))
          = none)
    ∧ (∀ secret2 alg payload, secret2 ≠ secret →
        TokenManager.verify_token secret now (jwtEncode secret2 alg payload)
          = none)
    ∧ (∀ t p, TokenManager.verify_token secret now t = some p →
        ∃ sig, t = .signed JWT_ALGORITHM p sig
          ∧ sig = macSign secret JWT_ALGORITHM p
          ∧ ∀ e, p.exp = some e → now < e) := by
  have failnone : ∀ t : Token,
      (∀ p sig, t = Token.signed JWT_ALGORITHM p sig →
        sig = macSign secret JWT_ALGORITHM p →
        (∀ e, p.exp = some e → now < e) → False) →
      TokenManager.verify_token secret now t = none := by
    intro t h
    cases hv : TokenManager.verify_token secret now t with
    | none => rfl
    | some p =>
      rw [verify_some_iff] at hv
      obtain ⟨sig, heq, hs, he⟩ := hv
      exact (h p sig heq hs he).elim
  refine ⟨fun raw => rfl, ?_, ?_, ?_, ?_, ?_,
    fun t p h => (verify_some_iff secret now t p).mp h⟩
  · intro alg payload sig hne
    apply failnone
    intro p s heq hs he
    injection heq with h1 h2 h3
    exact hne h1
  · intro alg payload sig hne
    apply failnone
    intro p s heq hs he
    injection heq with h1 h2 h3
    exact hne (h3.trans (hs.trans (by rw [h1, h2])))
  · intro alg payload sig e he hle
    apply failnone
    intro p s heq hs hexp
    injection heq with h1 h2 h3
    subst h2
    exact absurd (hexp e he) (not_lt.mpr hle)
  · intro payload tampered hne
    apply failnone
    intro p s heq hs he
    injection heq with h1 h2 h3
    have hmac := h3.trans hs
    simp only [macSign, Sig.mk.injEq, true_and] at hmac
    exact hne (h2.trans hmac.symm)
  · intro secret2 alg payload hne
    apply failnone
    intro p s heq hs he
    unfold jwtEncode at heq
    injection heq with h1 h2 h3
    have hmac := h3.trans hs
    simp only [macSign, Sig.mk.injEq] at hmac
    exact hne hmac.1

/-- Witness for C4 at concrete tokens: a malformed string, an `HS512`
header, a forged signature, an expired token, a tampered payload, a foreign
secret, and a successful verification. -/
theorem verify_token_total_failure_modes_witness :
    TokenManager.verify_token "s" 0 (.malformed "x") = none
    ∧ TokenManager.verify_token "s" 0
        (.signed "HS512" sampleClaims (macSign "s" "HS512" sampleClaims))
      = none
    ∧ TokenManager.verify_token "s" 0
        (.signed "HS256" sampleClaims (macSign "s2" "HS256" sampleClaims))
      = none
    ∧ TokenManager.verify_token "s" 100000
        (.signed "HS256" sampleClaims (macSign "s" "HS256" sampleClaims))
      = none
    ∧ TokenManager.verify_token "s" 0
        (.signed "HS256" tamperedClaims (macSign "s" "HS256" sampleClaims))
      = none
    ∧ TokenManager.verify_token "s" 0 (jwtEncode "s2" "HS256" sampleClaims)
      = none
    ∧ (∃ sig, jwtEncode "s" "HS256" sampleClaims
          = Token.signed JWT_ALGORITHM sampleClaims sig
        ∧ sig = macSign "s" JWT_ALGORITHM sampleClaims
        ∧ ∀ e, sampleClaims.exp = some e → (0 : Int) < e) := by
  refine ⟨(verify_token_total_failure_modes "s" 0).1 "x",
    (verify_token_total_failure_modes "s" 0).2.1 "HS512" sampleClaims _
      (by decide),
    (verify_token_total_failure_modes "s" 0).2.2.1 "HS256" sampleClaims _
      (by decide),
    (verify_token_total_failure_modes "s" 100000).2.2.2.1 "HS256"
      sampleClaims _ 86400 rfl (by norm_num),
    (verify_token_total_failure_modes "s" 0).2.2.2.2.1 sampleClaims
      tamperedClaims (by decide),
    (verify_token_total_failure_modes "s" 0).2.2.2.2.2.1 "s2" "HS256"
      sampleClaims (by decide),
    (verify_token_total_failure_modes "s" 0).2.2.2.2.2.2 _ sampleClaims
      (by decide)⟩

/-- C5: Failure-cause indistinguishability — whenever `jwt.decode` rejects
two tokens for (possibly different) internal reasons, `verify_token`
produces the identical outward value `None` for both, and the authorization
gate surfaces the identical `invalidCredential` outcome (the
`"Invalid or expired token"` 401 body) for both, so the caller cannot tell
the causes apart. -/
theorem failure_causes_indistinguishable {α : Type} (secret : String)
    (now : Int) (t1 t2 : Token) (e1 e2 : JwtError)
    (h1 : jwtDecode secret [JWT_ALGORITHM] now t1 = .error e1)
    (h2 : jwtDecode secret [JWT_ALGORITHM] now t2 = .error e2) :
    TokenManager.verify_token secret now t1
        = TokenManager.verify_token secret now t2
    ∧ ∀ (decode : List Char → Token) (hdr1 hdr2 tok1 tok2 : List Char)
        (f g : Claims → α),
        (pySplit ' ' hdr1)[1]? = some tok1 → tok1 ≠ [] → decode tok1 = t1 →
        (pySplit ' ' hdr2)[1]? = some tok2 → tok2 ≠ [] → decode tok2 = t2 →
        token_required decode secret now (some hdr1) f
            = GateResult.invalidCredential
        ∧ token_required decode secret now (some hdr2) g
            = GateResult.invalidCredential := by
  have v1 := verify_none_of_error secret now t1 e1 h1
  have v2 := verify_none_of_error secret now t2 e2 h2
  refine ⟨v1.trans v2.symm, ?_⟩
  intro decode hdr1 hdr2 tok1 tok2 f g hs1 hne1 hd1 hs2 hne2 hd2
  exact ⟨token_required_invalid_of decode secret now hdr1 tok1 f hs1 hne1
      (by rw [hd1]; exact v1),
    token_required_invalid_of decode secret now hdr2 tok2 g hs2 hne2
      (by rw [hd2]; exact v2)⟩

/-- Expired-but-well-signed token used by the C5 witness. -/
def cex5t1 : Token :=
  Token.signed "HS256" sampleClaims (macSign "s" "HS256" sampleClaims)

/-- Wire codec used by the C5 witness. -/
def cex5decode : List Char → Token :=
  fun s => if s = ['a'] then cex5t1 else Token.malformed "x"

/-- Witness for C5: an expired token and a malformed token fail for
distinct internal reasons yet yield equal verification results and equal
gate outcomes. -/
theorem failure_causes_indistinguishable_witness :
    jwtDecode "s" [JWT_ALGORITHM] 100000 cex5t1
        = .error .expiredSignature
    ∧ jwtDecode "s" [JWT_ALGORITHM] 100000 (Token.malformed "x")
        = .error .invalidToken
    ∧ JwtError.expiredSignature ≠ JwtError.invalidToken
    ∧ TokenManager.verify_token "s" 100000 cex5t1
        = TokenManager.verify_token "s" 100000 (Token.malformed "x")
    ∧ token_required cex5decode "s" 100000 (some ['B', ' ', 'a'])
        (fun c => c.user_id) = GateResult.invalidCredential
    ∧ token_required cex5decode "s" 100000 (some ['B', ' ', 'b'])
        (fun c => c.user_id) = GateResult.invalidCredential := by
  have h1 : jwtDecode "s" [JWT_ALGORITHM] 100000 cex5t1
      = .error .expiredSignature := by rfl
  have h2 : jwtDecode "s" [JWT_ALGORITHM] 100000 (Token.malformed "x")
      = .error .invalidToken := by rfl
  have main := failure_causes_indistinguishable (α := Option String) "s"
    100000 cex5t1 (Token.malformed "x") JwtError.expiredSignature
    JwtError.invalidToken h1 h2
  have gates := main.2 cex5decode ['B', ' ', 'a'] ['B', ' ', 'b'] ['a'] ['b']
    (fun c => c.user_id) (fun c => c.user_id)
    (by decide) (by decide) (by decide) (by decide) (by decide) (by decide)
  exact ⟨h1, h2, by decide, main.1, gates.1, gates.2⟩

/-- Wire codec mapping every string to a malformed token, used by the C6
theorems. -/
def cx6decode : List Char → Token := fun _ => Token.malformed "x"

/-- C6 (amended): Authorization-gate failure taxonomy — with no
`Authorization` header the gate fails with `missingCredential`
(`"Missing authorization token"`); with a header whose single-space split
has no second chunk it fails with `malformedCredential`
(`"Invalid authorization header"`); with a header whose second chunk is the
empty string (e.g. `"Bearer "`) it also fails with `missingCredential`,
because Python's `not token` treats the empty extracted token like an
absent one; with a nonempty extracted token that fails verification it
fails with `invalidCredential`; the scheme chunk is never validated (any
scheme without an internal space still yields exactly the token chunk);
and in every failure case the wrapped operation is not invoked — the
failing outcome is independent of the wrapped operation. -/
theorem gate_failure_taxonomy_amended {α : Type} (decode : List Char → Token)
    (secret : String) (now : Int) (f : Claims → α) :
    token_required decode secret now none f = .missingCredential
    ∧ (∀ hdr, (pySplit ' ' hdr)[1]? = none →
        token_required decode secret now (some hdr) f = .malformedCredential)
    ∧ (∀ hdr, (pySplit ' ' hdr)[1]? = some [] →
        token_required decode secret now (some hdr) f = .missingCredential)
    ∧ (∀ hdr tok, (pySplit ' ' hdr)[1]? = some tok → tok ≠ [] →
        TokenManager.verify_token secret now (decode tok) = none →
        token_required decode secret now (some hdr) f = .invalidCredential)
    ∧ (∀ scheme tok, ' ' ∉ scheme → ' ' ∉ tok →
        (pySplit ' ' (scheme ++ ' ' :: tok))[1]? = some tok)
    ∧ (∀ (hdr : Option (List Char)) (g : Claims → α),
        (∀ c v, token_required decode secret now hdr f ≠ .ok c v) →
        token_required decode secret now hdr f
          = token_required decode secret now hdr g) := by
  refine ⟨rfl,
    fun hdr h => token_required_malformed_of decode secret now hdr f h,
    fun hdr h => token_required_empty_of decode secret now hdr f h,
    fun hdr tok h hne hv =>
      token_required_invalid_of decode secret now hdr tok f h hne hv,
    ?_, ?_⟩
  · intro scheme tok hs ht
    rw [pySplit_sep_append ' ' scheme tok hs, pySplit_no_sep ' ' tok ht]
    simp
  · intro hdr g hno
    cases hdr with
    | none => rfl
    | some h =>
      cases hsp : (pySplit ' ' h)[1]? with
      | none =>
        rw [token_required_malformed_of decode secret now h f hsp,
          token_required_malformed_of decode secret now h g hsp]
      | some tok =>
        by_cases htok : tok = []
        · subst htok
          rw [token_required_empty_of decode secret now h f hsp,
            token_required_empty_of decode secret now h g hsp]
        · cases hv : TokenManager.verify_token secret now (decode tok) with
          | none =>
            rw [token_required_invalid_of decode secret now h tok f hsp htok hv,
              token_required_invalid_of decode secret now h tok g hsp htok hv]
          | some c =>
            cases hemp : c.isEmpty with
            | true =>
              rw [token_required_invalid_empty_of decode secret now h tok c f
                  hsp htok hv hemp,
                token_required_invalid_empty_of decode secret now h tok c g
                  hsp htok hv hemp]
            | false =>
              exact absurd
                (token_required_ok_of decode secret now h tok c f hsp htok hv
                  hemp)
                (hno c (f c))

/-- Witness for C6 (amended) at concrete headers: no header, the header
`"only"`, the header `"B "`, the header `"B a"`, the unrecognized scheme
`"Token abc"`, and independence from the wrapped operation. -/
theorem gate_failure_taxonomy_amended_witness :
    token_required cx6decode "s" 0 none (fun _ => (0 : Nat))
        = .missingCredential
    ∧ token_required cx6decode "s" 0 (some ['o', 'n', 'l', 'y'])
        (fun _ => (0 : Nat)) = .malformedCredential
    ∧ token_required cx6decode "s" 0 (some ['B', ' '])
        (fun _ => (0 : Nat)) = .missingCredential
    ∧ token_required cx6decode "s" 0 (some ['B', ' ', 'a'])
        (fun _ => (0 : Nat)) = .invalidCredential
    ∧ (pySplit ' ' (['T', 'o', 'k', 'e', 'n'] ++ ' ' :: ['a', 'b', 'c']))[1]?
        = some ['a', 'b', 'c']
    ∧ token_required cx6decode "s" 0 (some ['B', ' ', 'a'])
          (fun _ => (0 : Nat))
      = token_required cx6decode "s" 0 (some ['B', ' ', 'a'])
          (fun _ => (1 : Nat)) := by
  have main := gate_failure_taxonomy_amended (α := Nat) cx6decode "s" 0
    (fun _ => 0)
  exact ⟨main.1,
    main.2.1 ['o', 'n', 'l', 'y'] (by decide),
    main.2.2.1 ['B', ' '] (by decide),
    main.2.2.2.1 ['B', ' ', 'a'] ['a'] (by decide) (by decide) (by decide),
    main.2.2.2.2.1 ['T', 'o', 'k', 'e', 'n'] ['a', 'b', 'c'] (by decide)
      (by decide),
    main.2.2.2.2.2 (some ['B', ' ', 'a']) (fun _ => 1) (by
      intro c v h
      have hval : token_required cx6decode "s" 0 (some ['B', ' ', 'a'])
          (fun _ => (0 : Nat)) = GateResult.invalidCredential := by decide
      rw [hval] at h
      cases h)⟩

/-- Counterexample to C6 as stated: the header `"Bearer "` is present and
has a space-separated scheme/token split (scheme `"Bearer"`, empty token);
the extracted empty token fails verification, yet the gate answers
`missingCredential` (`"Missing authorization token"`), not the
`invalidCredential` the claim's taxonomy prescribes and not
`malformedCredential` either. -/
theorem gate_empty_token_missing_cx :
    (pySplit ' ' ['B', 'e', 'a', 'r', 'e', 'r', ' '])[1]? = some []
    ∧ TokenManager.verify_token "s" 0 (cx6decode []) = none
    ∧ token_required cx6decode "s" 0
        (some ['B', 'e', 'a', 'r', 'e', 'r', ' ']) (fun _ => (0 : Nat))
      = .missingCredential
    ∧ (GateResult.missingCredential : GateResult Nat)
        ≠ GateResult.invalidCredential
    ∧ (GateResult.missingCredential : GateResult Nat)
        ≠ GateResult.malformedCredential := by decide

/-- C7: Authorization-gate success path — for every request whose header
splits as `<scheme> <token>` with a nonempty token chunk that decodes to a
fresh access token, the gate attaches the verified claims as `request.user`
and invokes the wrapped operation, which observes `user_id` equal to the id
the token was issued for. -/
theorem gate_success_attaches_identity {α : Type}
    (decode : List Char → Token) (secret : String) (hours now : Int)
    (hdr tok : List Char) (uid email name : String) (f : Claims → α)
    (hsplit : (pySplit ' ' hdr)[1]? = some tok) (hne : tok ≠ [])
    (hdec : decode tok
      = TokenManager.create_access_token secret hours now uid email name)
    (hpos : 0 < hours) :
    ∃ c : Claims,
      token_required decode secret now (some hdr) f = .ok c (f c)
      ∧ c.user_id = some uid :=
  ⟨_, token_required_ok_of decode secret now hdr tok
      { user_id := some uid, email := some email, name := some name,
        type_ := none, iat := some now, exp := some (now + 3600 * hours) }
      f hsplit hne
      (by rw [hdec]
          exact verify_create_access secret hours now uid email name hpos)
      rfl,
    rfl⟩

/-- Wire codec used by the C7 witness: `"t"` denotes the freshly issued
access token. -/
def cx7decode : List Char → Token :=
  fun s => if s = ['t']
    then TokenManager.create_access_token "s" 24 0 "u1" "a@b.com" "Ann"
    else Token.malformed "x"

/-- Witness for C7: end-to-end with `user_id="u1"`, `email="a@b.com"`,
`name="Ann"` and the header `"Bearer t"` (scheme chunk `B`). -/
theorem gate_success_attaches_identity_witness :
    ∃ c : Claims,
      token_required cx7decode "s" 0 (some ['B', ' ', 't'])
          (fun c => c.user_id) = .ok c c.user_id
      ∧ c.user_id = some "u1" :=
  gate_success_attaches_identity cx7decode "s" 24 0 ['B', ' ', 't'] ['t']
    "u1" "a@b.com" "Ann" (fun c => c.user_id)
    (by decide) (by decide) (by decide) (by norm_num)

/-- C8: Optional-mode gate — the wrapped operation always runs: with a
missing header, an unsplittable header, a token that fails verification, or
a token that verifies to a falsy (empty) payload dict (`if payload:` does
not fire), the view is invoked with `request.user = None` (no identity in
context); and with a token verifying to a truthy payload it is invoked with
the verified claims attached. -/
theorem optional_gate_always_runs {α : Type} (decode : List Char → Token)
    (secret : String) (now : Int) (f : Option Claims → α) :
    (∀ hdr, ∃ ctx, optional_token decode secret now hdr f = f ctx)
    ∧ optional_token decode secret now none f = f none
    ∧ (∀ hdr, (pySplit ' ' hdr)[1]? = none →
        optional_token decode secret now (some hdr) f = f none)
    ∧ (∀ hdr tok, (pySplit ' ' hdr)[1]? = some tok →
        TokenManager.verify_token secret now (decode tok) = none →
        optional_token decode secret now (some hdr) f = f none)
    ∧ (∀ hdr tok c, (pySplit ' ' hdr)[1]? = some tok →
        TokenManager.verify_token secret now (decode tok) = some c →
        c.isEmpty = true →
        optional_token decode secret now (some hdr) f = f none)
    ∧ (∀ hdr tok c, (pySplit ' ' hdr)[1]? = some tok →
        TokenManager.verify_token secret now (decode tok) = some c →
        c.isEmpty = false →
        optional_token decode secret now (some hdr) f = f (some c)) := by
  refine ⟨fun hdr => ⟨_, rfl⟩, rfl, ?_, ?_, ?_, ?_⟩
  · intro hdr hsp
    simp [optional_token, hsp]
  · intro hdr tok hsp hv
    simp [optional_token, hsp, hv]
  · intro hdr tok c hsp hv hemp
    simp [optional_token, hsp, hv, hemp]
  · intro hdr tok c hsp hv hemp
    simp [optional_token, hsp, hv, hemp]

/-- Well-signed token whose payload is the empty dict, for the C8 witness:
PyJWT verifies it (no `exp` to check) but Python's `if payload:` is falsy
on it. -/
def emptyClaims : Claims :=
  { user_id := none, email := none, name := none, type_ := none,
    iat := none, exp := none }

/-- Wire codec used by the C8 witness: `"t"` denotes a fresh access token,
`"e"` a well-signed empty-payload token, everything else is malformed. -/
def cx8decode : List Char → Token :=
  fun s => if s = ['t']
    then TokenManager.create_access_token "s" 24 0 "u1" "a@b.com" "Ann"
    else if s = ['e'] then jwtEncode "s" "HS256" emptyClaims
    else Token.malformed "x"

/-- Witness for C8 at concrete requests: no header, malformed header
`"only"`, invalid token `"x"`, well-signed empty-payload token `"e"`
(verification succeeds yet no identity is attached), and valid token `"t"`;
the view is the identity on the attached context. -/
theorem optional_gate_always_runs_witness :
    optional_token cx8decode "s" 0 none (fun u => u) = none
    ∧ optional_token cx8decode "s" 0 (some ['o', 'n', 'l', 'y'])
        (fun u => u) = none
    ∧ optional_token cx8decode "s" 0 (some ['B', ' ', 'x'])
        (fun u => u) = none
    ∧ TokenManager.verify_token "s" 0 (cx8decode ['e']) = some emptyClaims
    ∧ optional_token cx8decode "s" 0 (some ['B', ' ', 'e'])
        (fun u => u) = none
    ∧ optional_token cx8decode "s" 0 (some ['B', ' ', 't'])
        (fun u => u)
      = some { user_id := some "u1", email := some "a@b.com",
               name := some "Ann", type_ := none, iat := some 0,
               exp := some 86400 } := by
  have main := optional_gate_always_runs (α := Option Claims) cx8decode "s" 0
    (fun u => u)
  exact ⟨main.2.1,
    main.2.2.1 ['o', 'n', 'l', 'y'] (by decide),
    main.2.2.2.1 ['B', ' ', 'x'] ['x'] (by decide) (by decide),
    by decide,
    main.2.2.2.2.1 ['B', ' ', 'e'] ['e'] emptyClaims (by decide) (by decide)
      (by decide),
    main.2.2.2.2.2 ['B', ' ', 't'] ['t'] _ (by decide) (by decide)
      (by decide)⟩

/-- Wire codec used by the C1 theorems: every string denotes the freshly
issued refresh token. -/
def cx1decode : List Char → Token :=
  fun _ => TokenManager.create_refresh_token "s" 0 "u1"

/-- Counterexample to C1 as stated: a valid (well-signed, unexpired)
refresh token presented at the general authorization gate — the gate that
protects every operation other than the refresh exchange — is not rejected
with any authorization error: the gate verifies it, attaches its claims as
`request.user` and invokes the wrapped operation. -/
theorem refresh_token_accepted_by_gate_cx :
    token_required cx1decode "s" 0 (some ['B', ' ', 'r'])
        (fun c => c.user_id)
      = .ok { user_id := some "u1", email := none, name := none,
              type_ := some "refresh", iat := some 0, exp := some 2592000 }
          (some "u1") := by decide

/-- C1 (amended): Token-type separation holds in one direction only —
`verify_refresh_token` rejects every access token, so an access token is
never accepted where a refresh token is required; but the general
authorization gate (`token_required`) calls only `verify_token`, which
ignores the `"type"` discriminator, so a valid unexpired refresh token
presented at any other protected operation is accepted and the wrapped
operation is invoked: there is no `WrongTokenType` rejection at the gate. -/
theorem token_type_separation_amended (secret : String) (hours now : Int)
    (uid email name : String) :
    TokenManager.verify_refresh_token secret now
        (TokenManager.create_access_token secret hours now uid email name)
      = none
    ∧ ∀ (α : Type) (decode : List Char → Token) (hdr tok : List Char)
        (f : Claims → α),
        (pySplit ' ' hdr)[1]? = some tok → tok ≠ [] →
        decode tok = TokenManager.create_refresh_token secret now uid →
        ∃ c : Claims,
          token_required decode secret now (some hdr) f = .ok c (f c)
          ∧ c.type_ = some "refresh" := by
  refine ⟨verify_refresh_access_none secret hours now uid email name, ?_⟩
  intro α decode hdr tok f hsp hne hdec
  exact ⟨_, token_required_ok_of decode secret now hdr tok
      { user_id := some uid, email := none, name := none,
        type_ := some "refresh", iat := some now,
        exp := some (now + 2592000) }
      f hsp hne
      (by rw [hdec]; exact verify_create_refresh secret now uid) rfl, rfl⟩

/-- Witness for C1 (amended) at a concrete access token, refresh token and
request. -/
theorem token_type_separation_amended_witness :
    TokenManager.verify_refresh_token "s" 0
        (TokenManager.create_access_token "s" 24 0 "u1" "a@b.com" "Ann")
      = none
    ∧ ∃ c : Claims,
        token_required cx1decode "s" 0 (some ['B', ' ', 'r'])
            (fun c => c.user_id) = .ok c c.user_id
        ∧ c.type_ = some "refresh" := by
  have main := token_type_separation_amended "s" 24 0 "u1" "a@b.com" "Ann"
  exact ⟨main.1, main.2 (Option String) cx1decode ['B', ' ', 'r'] ['r']
    (fun c => c.user_id) (by decide) (by decide) (by decide)⟩

/-- Environment that requests a 7-day refresh lifetime under every
plausible option name, for the C9 counterexample. -/
def envRefresh7 : Env := fun k =>
  if k = "JWT_REFRESH_TTL_DAYS" ∨ k = "REFRESH_TTL_DAYS"
      ∨ k = "refresh_ttl_days" ∨ k = "JWT_REFRESH_EXPIRATION_DAYS"
    then some "7" else none

/-- Counterexample to C9 as stated: with the environment requesting a 7-day
refresh lifetime, the issued refresh token still lives 30 days — the
refresh lifetime is the hard-coded `timedelta(days=30)` of the source and
no environment-sourced refresh-TTL option is recognized. -/
theorem refresh_ttl_not_configurable_cx :
    ((TokenManager.create_refresh_token (JWT_SECRET envRefresh7) 0
        "u1").payload?.map Claims.lifetime)
      = some (some 2592000)
    ∧ (2592000 : Int) ≠ 7 * 86400 := by decide

/-- C9 (amended): Access-token lifetime is environment-configurable via
`JWT_EXPIRATION_HOURS` with default 24 hours — `expires_at − issued_at` of
every issued access token equals 3600·`JWT_EXPIRATION_HOURS env`, which is
24 when the variable is unset and `n` when it is set to a decimal numeral
parsing to `n` — while the refresh-token lifetime is fixed at 30 days
(2592000 seconds) for every environment: no refresh-TTL option is
recognized. -/
theorem token_lifetimes_amended (env : Env) (now : Int)
    (uid email name : String) :
    ((TokenManager.create_access_token (JWT_SECRET env)
        (JWT_EXPIRATION_HOURS env) now uid email name).payload?.map
      Claims.lifetime)
      = some (some (3600 * JWT_EXPIRATION_HOURS env))
    ∧ (env "JWT_EXPIRATION_HOURS" = none → JWT_EXPIRATION_HOURS env = 24)
    ∧ (∀ s n, env "JWT_EXPIRATION_HOURS" = some s → pyInt? s = some n →
        JWT_EXPIRATION_HOURS env = n)
    ∧ ((TokenManager.create_refresh_token (JWT_SECRET env)
          now uid).payload?.map Claims.lifetime)
      = some (some 2592000) := by
  refine ⟨?_, ?_, ?_, ?_⟩
  · simp only [TokenManager.create_access_token, jwtEncode, Token.payload?,
      Option.map, Claims.lifetime]
    norm_num
  · intro h
    simp [JWT_EXPIRATION_HOURS, h]
  · intro s n hs hn
    simp [JWT_EXPIRATION_HOURS, hs, hn]
  · simp only [TokenManager.create_refresh_token, jwtEncode, Token.payload?,
      Option.map, Claims.lifetime]
    norm_num

/-- Environment configuring a 7-hour access lifetime, for the C9 witness. -/
def envHours7 : Env := fun k =>
  if k = "JWT_EXPIRATION_HOURS" then some "7" else none

/-- Witness for C9 (amended) at a concrete environment setting
`JWT_EXPIRATION_HOURS=7`. -/
theorem token_lifetimes_amended_witness :
    ((TokenManager.create_access_token (JWT_SECRET envHours7)
        (JWT_EXPIRATION_HOURS envHours7) 0 "u1" "a@b.com" "Ann").payload?.map
      Claims.lifetime)
      = some (some (3600 * JWT_EXPIRATION_HOURS envHours7))
    ∧ JWT_EXPIRATION_HOURS envHours7 = 7
    ∧ ((TokenManager.create_refresh_token (JWT_SECRET envHours7) 0
          "u1").payload?.map Claims.lifetime)
      = some (some 2592000) := by
  have main := token_lifetimes_amended envHours7 0 "u1" "a@b.com" "Ann"
  exact ⟨main.1, main.2.2.1 "7" 7 (by decide) (by decide), main.2.2.2⟩

end CrudApp
